import Mathlib

/-!
Verification development for the WhatDID activity tracker
(`src/main.py`, class `ActivityTracker`).

The embedding is shallow: wall-clock times and accumulated durations are
exact rationals (`ℚ`); the two `time.time()` calls inside one tick are
identified with the tick's single `now`. The sqlite log is a list of
`Sample`s; a failing `INSERT` is an `Except.error`, mirroring the uncaught
`sqlite3` exception. The `defaultdict(int)` duration map is an insertion
ordered association list, and Python's stable descending sort is
`List.insertionSort` with the non-strict "duration at least" relation,
which is stable in the same way.
-/

namespace WhatDID

/-- Characters permitted in a URL scheme: letters, digits, `+`, `-`, `.`
(the `scheme_chars` of `urllib.parse`). -/
def isSchemeChar (c : Char) : Bool :=
  c.isAlpha || c.isDigit || c == '+' || c == '-' || c == '.'

/-- A candidate scheme is valid when it is nonempty, starts with a letter
and consists of scheme characters only. -/
def validScheme (cs : List Char) : Bool :=
  match cs with
  | [] => false
  | c :: rest => c.isAlpha && (c :: rest).all isSchemeChar

/-- Remove a leading `scheme:` from a URL's characters when a valid scheme
is present, as `urllib.parse.urlparse` does. -/
def dropScheme (cs : List Char) : List Char :=
  let s := cs.span (· != ':')
  match s.2 with
  | ':' :: tail => if validScheme s.1 then tail else cs
  | _ => cs

/-- A character ending the network-location part of a URL. -/
def isNetlocEnd (c : Char) : Bool :=
  c == '/' || c == '?' || c == '#'

/-- The `netloc` of `urllib.parse.urlparse`: after the optional scheme the
URL must continue with `//`; the netloc then runs until `/`, `?` or `#`.
Without the `//` the netloc is empty. -/
def netlocChars (cs : List Char) : List Char :=
  match dropScheme cs with
  | '/' :: '/' :: rest => rest.takeWhile (fun c => !(isNetlocEnd c))
  | _ => []

/-- `re.sub(r'^www\.', '', domain)`: strip one leading `www.`. -/
def stripWWW : List Char → List Char
  | 'w' :: 'w' :: 'w' :: '.' :: rest => rest
  | cs => cs

/-- `ActivityTracker.extract_domain` (main.py lines 38-47): the parsed
URL's netloc with a leading `www.` removed. -/
def extract_domain (url : String) : String :=
  String.mk (stripWWW (netlocChars url.data))

/-- The space-separated pieces built by `format_elapsed_time`
(main.py lines 21-36): a days/hours/minutes piece exactly when the
corresponding value is positive, and always a seconds piece. -/
def elapsedParts (seconds : Nat) : List String :=
  let days := seconds / 86400
  let remainder1 := seconds % 86400
  let hours := remainder1 / 3600
  let remainder2 := remainder1 % 3600
  let minutes := remainder2 / 60
  let secs := remainder2 % 60
  (if days > 0 then [toString days ++ "d"] else []) ++
    (if hours > 0 then [toString hours ++ "h"] else []) ++
    (if minutes > 0 then [toString minutes ++ "m"] else []) ++
    [toString secs ++ "s"]

/-- `ActivityTracker.format_elapsed_time` (main.py lines 21-36). -/
def format_elapsed_time (seconds : Nat) : String :=
  String.intercalate " " (elapsedParts seconds)

/-- One row of the `activities` table (main.py lines 104-107). -/
structure Sample where
  timestamp : String
  app_name : String
  window_title : String
  url : Option String
  session : Option String
  deriving DecidableEq

/-- The mutable fields of `ActivityTracker` (main.py lines 13-19), plus
the sqlite log rows and whether the connection is open. -/
structure TrackerState where
  activity_duration : List (String × ℚ)
  current_session : Option String
  session_start_time : Option ℚ
  previous_time : ℚ
  overall_start_time : ℚ
  log : List Sample
  connOpen : Bool
  deriving DecidableEq

/-- A fresh `ActivityTracker()` created at time `t0`. -/
def initState (t0 : ℚ) : TrackerState :=
  { activity_duration := []
    current_session := none
    session_start_time := none
    previous_time := t0
    overall_start_time := t0
    log := []
    connOpen := true }

/-- `self.activity_duration[key] += d` on a `defaultdict(int)`: update the
entry for `key` in place, or append a fresh entry at the end. -/
def addDuration : List (String × ℚ) → String → ℚ → List (String × ℚ)
  | [], k, d => [(k, d)]
  | (k', v) :: rest, k, d =>
    if k' = k then (k', v + d) :: rest else (k', v) :: addDuration rest k d

/-- `sum(self.activity_duration.values())` (main.py line 118). -/
def aggTotal (m : List (String × ℚ)) : ℚ :=
  (m.map Prod.snd).sum

/-- `self.activity_duration.clear()` (main.py line 199). -/
def clearAgg (_ : List (String × ℚ)) : List (String × ℚ) := []

/-- A sequence of `record(key, delta)` calls folded into the aggregator. -/
def recordAll (m : List (String × ℚ)) (records : List (String × ℚ)) :
    List (String × ℚ) :=
  records.foldl (fun acc r => addDuration acc r.1 r.2) m

/-- `self.extract_domain(url) if url else app_name` (main.py line 111);
Python's truthiness makes both `None` and the empty string fall back to
the application name. -/
def activity_key (app_name : String) (url : Option String) : String :=
  match url with
  | some u => if u = "" then app_name else extract_domain u
  | none => app_name

/-- The `ActivityKey` of a `Sample`, a pure function of its fields. -/
def sampleKey (smp : Sample) : String :=
  activity_key smp.app_name smp.url

/-- A storage-layer failure of the sqlite `INSERT`. -/
inductive StoreError
  | failed
  deriving DecidableEq

/-- `ActivityTracker.insert_activity` (main.py lines 101-114). When the
`INSERT` raises, nothing is recorded and the exception propagates
(`Except.error`). On success the row is appended; then, when the activity
key is truthy, the elapsed delta is added under the key and the anchor
`previous_time` advances; a falsy key leaves the aggregate and anchor
untouched. -/
def insert_activity (s : TrackerState) (timestamp app_name window_title : String)
    (url : Option String) (now : ℚ) (storeOk : Bool) :
    Except StoreError TrackerState :=
  if storeOk then
    let s1 := { s with
      log := s.log ++ [⟨timestamp, app_name, window_title, url, s.current_session⟩] }
    let key := activity_key app_name url
    if key ≠ "" then
      Except.ok { s1 with
        activity_duration := addDuration s1.activity_duration key (now - s1.previous_time),
        previous_time := now }
    else
      Except.ok s1
  else
    Except.error StoreError.failed

/-- Descending comparison on accumulated duration: `p` may precede `q`
when `q`'s duration is at most `p`'s (the non-strict form keeps equal
durations in their original order, like Python's stable sort with
`reverse=True`). -/
def durGE (p q : String × ℚ) : Prop := q.2 ≤ p.2

instance : DecidableRel durGE :=
  fun p q => inferInstanceAs (Decidable (q.2 ≤ p.2))

instance : IsTotal (String × ℚ) durGE :=
  ⟨fun p q => le_total q.2 p.2⟩

instance : IsTrans (String × ℚ) durGE :=
  ⟨fun _ _ _ h1 h2 => le_trans h2 h1⟩

/-- `ActivityTracker.calculate_top_activities` (main.py lines 116-125):
empty when the total is zero, otherwise the five largest entries by
duration mapped to their percentage share. -/
def calculate_top_activities (m : List (String × ℚ)) : List (String × ℚ) :=
  let total := aggTotal m
  if total = 0 then []
  else ((List.insertionSort durGE m).take 5).map (fun p => (p.1, p.2 / total * 100))

/-- `ActivityTracker.start_new_session` (main.py lines 192-199): set the
session label and start time, reset the delta anchor, clear the
aggregator. -/
def start_new_session (s : TrackerState) (label : String) (now : ℚ) : TrackerState :=
  { s with
    current_session := some label
    session_start_time := some now
    previous_time := now
    activity_duration := clearAgg s.activity_duration }

/-- `ActivityTracker.stop_session` (main.py lines 201-208): the guard is
Python's truthiness test `if self.current_session:` — both `None` and the
empty-string label (reachable, since `input()` may return `""`) are falsy,
so only a session with a nonempty label is cleared; otherwise the function
only prints a message and changes nothing. -/
def stop_session (s : TrackerState) : TrackerState :=
  match s.current_session with
  | some lab =>
    if lab = "" then s
    else { s with current_session := none, session_start_time := none }
  | none => s

/-- A line of user input read by the loop, or the interrupt signal. -/
inductive Command
  | newSession (label : String)
  | stopCmd
  | quitCmd
  | invalid
  | interrupt
  deriving DecidableEq

/-- Why the tracking loop ended. -/
inductive ExitReason
  | quit
  | interrupted
  | storeError
  deriving DecidableEq

/-- The external events of one tick of `start_tracking`: the clock, the
timestamp string, the probe's answer (`none` on a probe failure), whether
the sqlite insert succeeds, and any pending user input. -/
structure TickInput where
  now : ℚ
  timestamp : String
  probe : Option (String × String × Option String)
  storeOk : Bool
  command : Option Command
  deriving DecidableEq

/-- Result of one loop iteration: continue, or leave the loop. -/
inductive TickOutcome
  | cont (s : TrackerState)
  | exit (r : ExitReason) (s : TrackerState)
  deriving DecidableEq

/-- The input-handling tail of one iteration (main.py lines 174-184),
with the interrupt signal modelled as arriving at the same point. -/
def handleCommand (s : TrackerState) (inp : TickInput) : TickOutcome :=
  match inp.command with
  | some (Command.newSession label) => TickOutcome.cont (start_new_session s label inp.now)
  | some Command.stopCmd => TickOutcome.cont (stop_session s)
  | some Command.quitCmd => TickOutcome.exit ExitReason.quit s
  | some Command.invalid => TickOutcome.cont s
  | some Command.interrupt => TickOutcome.exit ExitReason.interrupted s
  | none => TickOutcome.cont s

/-- One iteration of the `while True` loop (main.py lines 142-186): probe,
insert when an application name was obtained (a raised store error
aborts the iteration and the loop), then handle input. -/
def tickStep (s : TrackerState) (inp : TickInput) : TickOutcome :=
  match inp.probe with
  | some (app, title, url) =>
    if app ≠ "" then
      match insert_activity s inp.timestamp app title url inp.now inp.storeOk with
      | Except.ok s1 => handleCommand s1 inp
      | Except.error _ => TickOutcome.exit ExitReason.storeError s
    else handleCommand s inp
  | none => handleCommand s inp

/-- Run the loop over a finite script of tick inputs; `none` as the
second component means the script ended with the loop still running. -/
def runTicks (s : TrackerState) : List TickInput → TrackerState × Option ExitReason
  | [] => (s, none)
  | inp :: rest =>
    match tickStep s inp with
    | TickOutcome.cont s1 => runTicks s1 rest
    | TickOutcome.exit r s1 => (s1, some r)

/-- The `finally: self.conn.close()` (main.py line 190). -/
def closeConn (s : TrackerState) : TrackerState :=
  { s with connOpen := false }

/-- `ActivityTracker.start_tracking` (main.py lines 136-190) over a finite
script: every path that leaves the `try` block — `q`, interrupt, or a
propagating store error — passes through the `finally` that closes the
connection. -/
def start_tracking (s : TrackerState) (script : List TickInput) :
    TrackerState × Option ExitReason :=
  match runTicks s script with
  | (s1, some r) => (closeConn s1, some r)
  | (s1, none) => (s1, none)

/-! ### Concrete states and tick inputs used by claims and witnesses -/

/-- A session "work" started at time 0 on a fresh tracker. -/
def sess0 : TrackerState := start_new_session (initState 0) "work" 0

/-- A session "work" started at time -1 on a fresh tracker. -/
def sessM1 : TrackerState := start_new_session (initState 0) "work" (-1)

/-- A successful probe tick at time `t` seeing application `app`, no URL. -/
def probeTick (t : ℚ) (app : String) : TickInput :=
  { now := t, timestamp := "ts", probe := some (app, "w", none), storeOk := true, command := none }

/-- A tick whose probe fails (the `except` branch of
`get_active_window_info` returns no application name). -/
def failProbeTick (t : ℚ) : TickInput :=
  { now := t, timestamp := "ts", probe := none, storeOk := true, command := none }

/-- The probe responses of claim C2: App A at t = 0 and t = 1, App B at t = 2. -/
def c2script : List TickInput :=
  [probeTick 0 "App A", probeTick 1 "App A", probeTick 2 "App B"]

/-- A tick with a successful probe whose sqlite insert raises. -/
def storeFailTick : TickInput :=
  { now := 1, timestamp := "t1", probe := some ("App A", "w", none),
    storeOk := false, command := none }

/-- A later, fully successful tick. -/
def afterFailTick : TickInput :=
  { now := 2, timestamp := "t2", probe := some ("App B", "w", none),
    storeOk := true, command := none }

/-- Probe ok at t = 1 and t = 3, probe failure at t = 2. -/
def c7script : List TickInput :=
  [probeTick 1 "App A", failProbeTick 2, probeTick 3 "App A"]

/-- A tick delivering the `q` command. -/
def quitTick : TickInput :=
  { now := 1, timestamp := "t", probe := none, storeOk := true,
    command := some Command.quitCmd }

/-- A tick on which the user interrupt arrives. -/
def interruptTick : TickInput :=
  { now := 1, timestamp := "t", probe := none, storeOk := true,
    command := some Command.interrupt }

/-! ### Helper lemmas -/

theorem aggTotal_cons (p : String × ℚ) (m : List (String × ℚ)) :
    aggTotal (p :: m) = p.2 + aggTotal m := by
  simp [aggTotal]

theorem aggTotal_addDuration (m : List (String × ℚ)) (k : String) (d : ℚ) :
    aggTotal (addDuration m k d) = aggTotal m + d := by
  induction m with
  | nil => simp [addDuration, aggTotal]
  | cons p rest ih =>
    obtain ⟨k', v⟩ := p
    by_cases h : k' = k
    · simp [addDuration, h, aggTotal_cons]
      ring
    · simp [addDuration, h, aggTotal_cons, ih]
      ring

theorem aggTotal_recordAll (records : List (String × ℚ)) (m : List (String × ℚ)) :
    aggTotal (recordAll m records) = aggTotal m + (records.map Prod.snd).sum := by
  induction records generalizing m with
  | nil => simp [recordAll]
  | cons r rs ih =>
    have hstep : recordAll m (r :: rs) = recordAll (addDuration m r.1 r.2) rs := rfl
    rw [hstep, ih, aggTotal_addDuration]
    simp
    ring

theorem aggTotal_nonneg (m : List (String × ℚ)) (h : ∀ p ∈ m, 0 ≤ p.2) :
    0 ≤ aggTotal m := by
  refine List.sum_nonneg ?_
  intro x hx
  obtain ⟨p, hp, rfl⟩ := List.mem_map.mp hx
  exact h p hp

theorem sum_map_pct (l : List (String × ℚ)) (t : ℚ) :
    ((l.map fun p => (p.1, p.2 / t * 100)).map Prod.snd).sum =
      (l.map Prod.snd).sum / t * 100 := by
  induction l with
  | nil => simp
  | cons x xs ih =>
    simp only [List.map_cons, List.sum_cons, List.map_map] at ih ⊢
    rw [ih]
    ring

/-! ### Claims -/

/-- Claim C1: for every sequence of (key, delta) records folded into the
Duration Aggregator after a clear, the sum of accumulated seconds across
all ActivityKeys equals the sum of the recorded deltas (exact here, since
durations are modelled as rationals), and immediately after a clear the
total across all keys is exactly zero. -/
theorem C1_total_is_sum_of_deltas (m0 : List (String × ℚ))
    (records : List (String × ℚ)) :
    aggTotal (recordAll (clearAgg m0) records) = (records.map Prod.snd).sum ∧
      aggTotal (clearAgg m0) = 0 := by
  constructor
  · rw [aggTotal_recordAll]
    simp [clearAgg, aggTotal]
  · simp [clearAgg, aggTotal]

/-- Claim C3: session transitions form a two-state machine under the
code's own notion of Active — a truthy (nonempty) session label. Starting
a session sets the label and start time, clears the aggregator to
all-zero and resets the delta anchor to now; stopping from Active (label
present and nonempty) moves to Idle leaving the accumulated totals (and
log and anchor) untouched; stopping when there is no session — and
likewise with the falsy empty-string label, which the code treats as "no
active session" — is a no-op that changes no state and raises no error. -/
theorem C3_session_state_machine (s : TrackerState) (lab : String) (now : ℚ) :
    ((start_new_session s lab now).current_session = some lab ∧
      (start_new_session s lab now).session_start_time = some now ∧
      (start_new_session s lab now).activity_duration = [] ∧
      (start_new_session s lab now).previous_time = now) ∧
    (s.current_session = some lab → lab ≠ "" →
      (stop_session s).current_session = none ∧
      (stop_session s).activity_duration = s.activity_duration ∧
      (stop_session s).previous_time = s.previous_time ∧
      (stop_session s).log = s.log) ∧
    (s.current_session = none → stop_session s = s) ∧
    (s.current_session = some "" → stop_session s = s) := by
  refine ⟨⟨rfl, rfl, rfl, rfl⟩, ?_, ?_, ?_⟩
  · intro h hlab
    simp [stop_session, h, hlab]
  · intro h
    simp [stop_session, h]
  · intro h
    simp [stop_session, h]

/-- Witness for C3 at concrete states: stopping the active session
"work" started on a fresh tracker yields Idle; stopping an idle tracker
changes nothing; and stopping a session whose label is the empty string
(falsy in the code's guard) also changes nothing. -/
theorem C3_session_state_machine_witness :
    (stop_session (start_new_session (initState 0) "work" 0)).current_session = none ∧
      stop_session (initState 0) = initState 0 ∧
      stop_session (start_new_session (initState 0) "" 0) =
        start_new_session (initState 0) "" 0 :=
  ⟨((C3_session_state_machine (start_new_session (initState 0) "work" 0) "work" 0).2.1
      rfl (by decide)).1,
    (C3_session_state_machine (initState 0) "work" 0).2.2.1 rfl,
    (C3_session_state_machine (start_new_session (initState 0) "" 0) "" 0).2.2.2 rfl⟩

/-- Claim C5: the ActivityKey is a pure function of the Sample: with a
(nonempty) URL it is the URL's host with the scheme parsed away and a
leading `www.` stripped — so `https://www.example.com/page` keys as
`example.com` — and with no URL it is the application name verbatim;
it depends on nothing but the sample's fields. -/
theorem C5_activity_key_of_sample (smp smp2 : Sample) (u : String) :
    extract_domain "https://www.example.com/page" = "example.com" ∧
    activity_key "Safari" (some "https://www.example.com/page") = "example.com" ∧
    (smp.url = none → sampleKey smp = smp.app_name) ∧
    (smp.url = some u → u ≠ "" → sampleKey smp = extract_domain u) ∧
    (smp.app_name = smp2.app_name → smp.url = smp2.url → sampleKey smp = sampleKey smp2) := by
  refine ⟨rfl, rfl, ?_, ?_, ?_⟩
  · intro h
    simp [sampleKey, activity_key, h]
  · intro h hu
    simp [sampleKey, activity_key, h, hu]
  · intro h1 h2
    simp [sampleKey, activity_key, h1, h2]

/-- Witness for C5 at concrete samples: an application-only sample keys as
its application name, and a browser sample on
`https://www.example.com/page` keys as `example.com`. -/
theorem C5_activity_key_of_sample_witness :
    sampleKey ⟨"t", "TextEdit", "w", none, none⟩ = "TextEdit" ∧
      sampleKey ⟨"t", "Safari", "w", some "https://www.example.com/page", none⟩ =
        "example.com" :=
  ⟨(C5_activity_key_of_sample ⟨"t", "TextEdit", "w", none, none⟩
      ⟨"t", "TextEdit", "w", none, none⟩ "x").2.2.1 rfl,
    ((C5_activity_key_of_sample ⟨"t", "Safari", "w", some "https://www.example.com/page", none⟩
        ⟨"t", "Safari", "w", some "https://www.example.com/page", none⟩
        "https://www.example.com/page").2.2.2.1 rfl (by decide)).trans
      (C5_activity_key_of_sample ⟨"t", "TextEdit", "w", none, none⟩
        ⟨"t", "TextEdit", "w", none, none⟩ "x").1⟩

/-- Claim C8: `format_elapsed_time` renders days, hours, minutes and
seconds, each of the first three present exactly when its value is
positive and the seconds piece always present (and last); in particular
0 ↦ "0s", 65 ↦ "1m 5s" and 90061 ↦ "1d 1h 1m 1s". -/
theorem C8_format_elapsed_time (n : Nat) :
    format_elapsed_time 0 = "0s" ∧
    format_elapsed_time 65 = "1m 5s" ∧
    format_elapsed_time 90061 = "1d 1h 1m 1s" ∧
    (elapsedParts n).length =
      ((if 0 < n / 86400 then 1 else 0) + ((if 0 < n % 86400 / 3600 then 1 else 0) +
        ((if 0 < n % 86400 % 3600 / 60 then 1 else 0) + 1))) ∧
    (elapsedParts n).getLast? = some (toString (n % 86400 % 3600 % 60) ++ "s") := by
  refine ⟨rfl, rfl, rfl, ?_, ?_⟩
  · simp only [elapsedParts, List.length_append]
    split_ifs <;> simp
  · simp only [elapsedParts]
    exact List.getLast?_concat _

/-- Claim C4: when all accumulated durations are nonnegative (as the
program maintains), the top-activities query returns at most 5 entries,
sorted in descending order; each returned percentage is its key's
accumulated total divided by the sum of all totals times 100; the returned
percentages sum to at most 100, and to exactly 100 when every accumulated
key is included (total nonzero and at most 5 keys); and the result is
empty exactly when the total across all keys is zero. -/
theorem C4_top_activities (m : List (String × ℚ)) (hpos : ∀ p ∈ m, 0 ≤ p.2) :
    (calculate_top_activities m).length ≤ 5 ∧
    List.Sorted durGE (calculate_top_activities m) ∧
    (∀ p ∈ calculate_top_activities m, ∃ d, (p.1, d) ∈ m ∧ p.2 = d / aggTotal m * 100) ∧
    ((calculate_top_activities m).map Prod.snd).sum ≤ 100 ∧
    (aggTotal m ≠ 0 → m.length ≤ 5 →
      ((calculate_top_activities m).map Prod.snd).sum = 100) ∧
    (calculate_top_activities m = [] ↔ aggTotal m = 0) := by
  by_cases htot : aggTotal m = 0
  · have hempty : calculate_top_activities m = [] := by
      simp [calculate_top_activities, htot]
    rw [hempty]
    refine ⟨by simp, List.sorted_nil, by simp, by norm_num, fun h _ => absurd htot h, ?_⟩
    simp [htot]
  · have hcalc : calculate_top_activities m =
        ((List.insertionSort durGE m).take 5).map
          (fun p => (p.1, p.2 / aggTotal m * 100)) := by
      simp [calculate_top_activities, htot]
    have hperm : (List.insertionSort durGE m).Perm m := List.perm_insertionSort durGE m
    have hsorted : List.Sorted durGE (List.insertionSort durGE m) :=
      List.sorted_insertionSort durGE m
    have htpos : 0 < aggTotal m :=
      lt_of_le_of_ne (aggTotal_nonneg m hpos) (Ne.symm htot)
    have hsum_srt : ((List.insertionSort durGE m).map Prod.snd).sum = aggTotal m :=
      (hperm.map Prod.snd).sum_eq
    have hsplit :
        (((List.insertionSort durGE m).take 5).map Prod.snd).sum +
          (((List.insertionSort durGE m).drop 5).map Prod.snd).sum = aggTotal m := by
      rw [← hsum_srt, ← List.sum_append, ← List.map_append, List.take_append_drop]
    have hdrop_nonneg : 0 ≤ (((List.insertionSort durGE m).drop 5).map Prod.snd).sum := by
      refine List.sum_nonneg ?_
      intro x hx
      obtain ⟨p, hp, rfl⟩ := List.mem_map.mp hx
      exact hpos p (hperm.subset (List.drop_subset 5 _ hp))
    have htake_le :
        (((List.insertionSort durGE m).take 5).map Prod.snd).sum ≤ aggTotal m := by
      linarith
    refine ⟨?_, ?_, ?_, ?_, ?_, ?_⟩
    · rw [hcalc]
      simp [List.length_take]
    · rw [hcalc]
      refine List.Pairwise.map _ ?_ (hsorted.sublist (List.take_sublist 5 _))
      intro a b hab
      have h100 : (0:ℚ) ≤ 100 := by norm_num
      exact mul_le_mul_of_nonneg_right ((div_le_div_iff_of_pos_right htpos).mpr hab) h100
    · intro p hp
      rw [hcalc] at hp
      obtain ⟨q, hq, rfl⟩ := List.mem_map.mp hp
      refine ⟨q.2, ?_, rfl⟩
      have hqm : q ∈ m := hperm.subset ((List.take_sublist 5 _).subset hq)
      simpa using hqm
    · rw [hcalc, sum_map_pct]
      have h1 : (((List.insertionSort durGE m).take 5).map Prod.snd).sum / aggTotal m ≤ 1 :=
        (div_le_one htpos).mpr htake_le
      calc (((List.insertionSort durGE m).take 5).map Prod.snd).sum / aggTotal m * 100
          ≤ 1 * 100 := mul_le_mul_of_nonneg_right h1 (by norm_num)
        _ = 100 := by norm_num
    · intro _ hlen
      have hsrtlen : (List.insertionSort durGE m).length ≤ 5 := by
        rw [hperm.length_eq]
        exact hlen
      rw [hcalc, List.take_of_length_le hsrtlen, sum_map_pct, hsum_srt, div_self htot]
      norm_num
    · rw [hcalc]
      constructor
      · intro hEmpty
        exfalso
        rw [List.map_eq_nil_iff] at hEmpty
        have hsrtnil : List.insertionSort durGE m = [] := by
          rcases List.take_eq_nil_iff.mp hEmpty with h | h
          · exact absurd h (by norm_num)
          · exact h
        have hmnil : m = [] := by
          have h2 := hperm.symm
          rw [hsrtnil] at h2
          exact h2.eq_nil
        exact htot (by simp [hmnil, aggTotal])
      · intro h
        exact absurd h htot

/-- Witness for C4 at a concrete aggregator with two keys: all hypotheses
discharged, the returned percentages sum to exactly 100. -/
theorem C4_top_activities_witness :
    ((calculate_top_activities [("a", 3), ("b", 1)]).map Prod.snd).sum = 100 :=
  (C4_top_activities [("a", 3), ("b", 1)]
      (by norm_num)).2.2.2.2.1 (by norm_num [aggTotal]) (by norm_num)


/-- Claim C2, counterexample: with the delta anchor reset to t = 0 (session
started immediately before the first tick), the code attributes a zero
delta to App A at t = 0, one second to App A at t = 1 and one second to
App B at t = 2, so after the third tick the aggregator holds
App A: 1s and App B: 1s — not the claimed App A: 2s — and top(5) reports
50% / 50%, not 66.7% / 33.3%. -/
theorem C2_counterexample :
    (runTicks sess0 c2script).1.activity_duration = [("App A", 1), ("App B", 1)] ∧
    calculate_top_activities (runTicks sess0 c2script).1.activity_duration =
      [("App A", 50), ("App B", 50)] ∧
    (runTicks sess0 c2script).1.activity_duration ≠ [("App A", 2), ("App B", 1)] := by
  have h1 : (runTicks sess0 c2script).1.activity_duration =
      [("App A", 1), ("App B", 1)] := by
    norm_num +decide [sess0, probeTick, c2script, runTicks, tickStep, insert_activity,
      handleCommand, activity_key, addDuration, start_new_session, initState, clearAgg]
  refine ⟨h1, ?_, ?_⟩
  · rw [h1]
    norm_num +decide [calculate_top_activities, aggTotal, List.insertionSort,
      List.orderedInsert, durGE]
  · rw [h1]
    intro h
    simp at h

/-- Claim C2, amended: the spec's expected figures require the delta anchor
one tick period before the first tick. With the session started at
t = -1, the probe responses of C2 leave the aggregator at exactly
App A: 2s, App B: 1s after the third tick, and top(5) reports
App A at 200/3 % (about 66.7) and App B at 100/3 % (about 33.3). -/
theorem C2_amended :
    (runTicks sessM1 c2script).1.activity_duration = [("App A", 2), ("App B", 1)] ∧
    calculate_top_activities (runTicks sessM1 c2script).1.activity_duration =
      [("App A", 200 / 3), ("App B", 100 / 3)] := by
  have h1 : (runTicks sessM1 c2script).1.activity_duration =
      [("App A", 2), ("App B", 1)] := by
    norm_num +decide [sessM1, probeTick, c2script, runTicks, tickStep, insert_activity,
      handleCommand, activity_key, addDuration, start_new_session, initState, clearAgg]
  refine ⟨h1, ?_⟩
  rw [h1]
  norm_num +decide [calculate_top_activities, aggTotal, List.insertionSort,
    List.orderedInsert, durGE]

/-- Claim C6, counterexample: a failing store append is not caught by the
loop — the run ends with a store error, and the subsequent fully
successful tick never executes: no row (neither tick's) reaches the log. -/
theorem C6_counterexample :
    runTicks (initState 0) [storeFailTick, afterFailTick] =
      (initState 0, some ExitReason.storeError) ∧
    (runTicks (initState 0) [storeFailTick, afterFailTick]).1.log = [] := by
  constructor
  · rfl
  · rfl

/-- Claim C6, amended: a store failure on a tick whose probe returned an
application name terminates the Tracking Loop with a store error — the
exception propagates out of the `while` loop, no later tick runs — and
the connection is closed by the `finally` on the way out. -/
theorem C6_store_failure_fatal (s : TrackerState) (inp : TickInput)
    (rest : List TickInput) (app title : String) (url : Option String)
    (hp : inp.probe = some (app, title, url)) (ha : app ≠ "")
    (hs : inp.storeOk = false) :
    runTicks s (inp :: rest) = (s, some ExitReason.storeError) ∧
    (start_tracking s (inp :: rest)).1.connOpen = false := by
  have hstep : tickStep s inp = TickOutcome.exit ExitReason.storeError s := by
    simp [tickStep, hp, ha, insert_activity, hs]
  constructor
  · simp [runTicks, hstep]
  · simp [start_tracking, runTicks, hstep, closeConn]

/-- Witness for C6 at a concrete run: the single failing tick ends the loop
with a store error and a closed connection. -/
theorem C6_store_failure_fatal_witness :
    runTicks (initState 0) [storeFailTick] = (initState 0, some ExitReason.storeError) ∧
    (start_tracking (initState 0) [storeFailTick]).1.connOpen = false :=
  C6_store_failure_fatal (initState 0) storeFailTick [] "App A" "w" none rfl
    (by decide) rfl

/-- Claim C7, counterexample: with the session anchor at t = 0, ticks at
t = 1 (App A), t = 2 (probe failure), t = 3 (App A) leave App A with all
3 seconds: the failed interval is not a gap — the anchor is not advanced
on the failed tick, so the next successful sample absorbs it (a gap would
leave the total at 2). -/
theorem C7_counterexample :
    (runTicks sess0 c7script).1.activity_duration = [("App A", 3)] ∧
    aggTotal (runTicks sess0 c7script).1.activity_duration = 3 ∧
    aggTotal (runTicks sess0 c7script).1.activity_duration ≠ 2 := by
  have h1 : (runTicks sess0 c7script).1.activity_duration = [("App A", 3)] := by
    norm_num +decide [sess0, probeTick, failProbeTick, c7script, runTicks, tickStep,
      insert_activity, handleCommand, activity_key, addDuration, start_new_session,
      initState, clearAgg]
  refine ⟨h1, ?_, ?_⟩
  · rw [h1]
    norm_num [aggTotal]
  · rw [h1]
    norm_num [aggTotal]

/-- Claim C7, amended: a tick whose probe fails (and carries no user
command) appends no sample, updates no aggregate and leaves the whole
state — including the delta anchor — unchanged, so the loop continues
with the remaining ticks exactly as if the failed tick had not happened;
the failed interval is therefore attributed to the key of the next sample
that updates the aggregate, not lost as a gap. -/
theorem C7_probe_failure_keeps_state (s : TrackerState) (inp : TickInput)
    (rest : List TickInput) (hp : inp.probe = none) (hc : inp.command = none) :
    tickStep s inp = TickOutcome.cont s ∧
    runTicks s (inp :: rest) = runTicks s rest := by
  have h1 : tickStep s inp = TickOutcome.cont s := by
    simp [tickStep, hp, handleCommand, hc]
  exact ⟨h1, by simp [runTicks, h1]⟩

/-- Witness for C7 at a concrete failed tick on a fresh tracker. -/
theorem C7_probe_failure_keeps_state_witness :
    tickStep (initState 0) (failProbeTick 1) = TickOutcome.cont (initState 0) ∧
    runTicks (initState 0) [failProbeTick 1] = runTicks (initState 0) [] :=
  C7_probe_failure_keeps_state (initState 0) (failProbeTick 1) [] rfl rfl

/-- Claim C9: whenever the loop exits — by the `q` command, by the user
interrupt, or by a propagating store error — the store connection is
closed before `start_tracking` returns: the `finally` block runs on every
exit path. -/
theorem C9_store_closed_on_exit (s : TrackerState) (script : List TickInput)
    (s1 : TrackerState) (r : ExitReason)
    (h : start_tracking s script = (s1, some r)) :
    s1.connOpen = false := by
  unfold start_tracking at h
  cases hr : runTicks s script with
  | mk a b =>
    rw [hr] at h
    cases b with
    | none => simp at h
    | some r2 =>
      rw [Prod.mk.injEq] at h
      rw [← h.1]
      rfl

/-- Witness for C9: both on a `q` tick and on an interrupt tick the final
state has a closed connection. -/
theorem C9_store_closed_on_exit_witness :
    (start_tracking (initState 0) [quitTick]).1.connOpen = false ∧
    (start_tracking (initState 0) [interruptTick]).1.connOpen = false :=
  ⟨C9_store_closed_on_exit (initState 0) [quitTick] _ ExitReason.quit rfl,
    C9_store_closed_on_exit (initState 0) [interruptTick] _ ExitReason.interrupted rfl⟩

/-- Claim C10: a nonempty URL whose parsed netloc is empty (for example a
URL without a scheme, such as `www.example.com/page`) gives an empty
activity key: the sample is still persisted to the store, but the
aggregator is not updated — the application name is no fallback — and the
anchor `previous_time` does not advance, so the next sample whose key is
truthy (here an application-only sample) is charged the elapsed time all
the way back to the old anchor. -/
theorem C10_empty_key_no_update (s : TrackerState)
    (ts app title u app2 title2 : String) (now now2 : ℚ)
    (hu : u ≠ "") (hd : extract_domain u = "") (ha2 : app2 ≠ "") :
    extract_domain "www.example.com/page" = "" ∧
    insert_activity s ts app title (some u) now true =
      Except.ok { s with log := s.log ++ [⟨ts, app, title, some u, s.current_session⟩] } ∧
    insert_activity { s with log := s.log ++ [⟨ts, app, title, some u, s.current_session⟩] }
        "t2" app2 title2 none now2 true =
      Except.ok { s with
        activity_duration := addDuration s.activity_duration app2 (now2 - s.previous_time),
        previous_time := now2,
        log := (s.log ++ [⟨ts, app, title, some u, s.current_session⟩]) ++
          [⟨"t2", app2, title2, none, s.current_session⟩] } := by
  refine ⟨rfl, ?_, ?_⟩
  · simp [insert_activity, activity_key, hu, hd]
  · simp [insert_activity, activity_key, ha2]

/-- Witness for C10 at a concrete state and URL. -/
theorem C10_empty_key_no_update_witness :
    insert_activity (initState 0) "t" "Safari" "w" (some "www.example.com/page") 1 true =
      Except.ok { initState 0 with
        log := (initState 0).log ++
          [⟨"t", "Safari", "w", some "www.example.com/page", (initState 0).current_session⟩] } :=
  (C10_empty_key_no_update (initState 0) "t" "Safari" "w" "www.example.com/page"
      "App B" "w" 1 2 (by decide) rfl (by decide)).2.1

end WhatDID
